import Mathlib

/-!
Shallow embedding of `server.py` from the mobilitypt-template-server
repository: the template loader (`load_templates`), the placeholder
renderer (`render_template`) and the request router (`handle_request`),
together with proofs of the specified properties.

Python strings are modelled as `String`/`List Char`; Python dicts with
string keys as association lists with unique keys where inserting an
existing key overwrites in place (preserving insertion order, as CPython
dicts do); JSON values as the inductive type `JVal` (JSON numbers are
modelled as integers; floating point is not modelled).
-/

namespace Mobility

/-- A JSON value as produced by `json.loads` (numbers restricted to
integers). -/
inductive JVal where
  | jnull : JVal
  | jbool : Bool → JVal
  | jnum : Int → JVal
  | jstr : String → JVal
  | jarr : List JVal → JVal
  | jobj : List (String × JVal) → JVal

/-- Python `d.get(k)` on a dict modelled as an association list. -/
def dictGet {α : Type} (d : List (String × α)) (k : String) : Option α :=
  (d.find? (fun p => p.1 == k)).map (fun p => p.2)

/-- Python `d[k] = v` on a dict: overwrite in place if the key exists,
otherwise append (CPython insertion-order semantics). -/
def dictInsert {α : Type} (d : List (String × α)) (k : String) (v : α) :
    List (String × α) :=
  if d.any (fun p => p.1 == k) then
    d.map (fun p => if p.1 == k then (k, v) else p)
  else d ++ [(k, v)]

/-- Python `list(d.keys())`. -/
def dictKeys {α : Type} (d : List (String × α)) : List String :=
  d.map (fun p => p.1)

/-- Python `str.isspace` characters removed by `str.strip()`. -/
def pyIsSpace (c : Char) : Bool :=
  c = ' ' || c = '\t' || c = '\n' || c = '\r' || c = '\x0b' || c = '\x0c'

/-- Python `s.strip()`: drop leading and trailing whitespace. -/
def pyStrip (s : List Char) : List Char :=
  ((s.dropWhile pyIsSpace).reverse.dropWhile pyIsSpace).reverse

/-- Characters treated as line boundaries by Python `str.splitlines()`. -/
def isLineBreakChar (c : Char) : Bool :=
  c = '\n' || c = '\r' || c = '\x0b' || c = '\x0c' || c = '\x1c' ||
  c = '\x1d' || c = '\x1e' || c = '\x85' || c = '\u2028' || c = '\u2029'

/-- Worker for `pySplitlines`, carrying the (reversed) current line; a
`"\r\n"` pair counts as a single boundary. -/
def splitlinesAux : List Char → List Char → List (List Char)
  | [], acc => if acc.isEmpty then [] else [acc.reverse]
  | c :: rest, acc =>
    if c = '\r' then
      if rest.head? = some '\n' then acc.reverse :: splitlinesAux rest.tail []
      else acc.reverse :: splitlinesAux rest []
    else if isLineBreakChar c then acc.reverse :: splitlinesAux rest []
    else splitlinesAux rest (c :: acc)
  termination_by s _ => s.length
  decreasing_by
    all_goals (simp only [List.length_tail, List.length_cons]; omega)

/-- Python `s.splitlines()`: `"a\nb" ↦ ["a","b"]`, `"a\n" ↦ ["a"]`,
`"" ↦ []`. -/
def pySplitlines (s : List Char) : List (List Char) :=
  splitlinesAux s []

/-- Check whether `s` starts with the token `tok`. -/
def startsWithTok : List Char → List Char → Bool
  | [], _ => true
  | _ :: _, [] => false
  | t :: ts, c :: cs => t == c && startsWithTok ts cs

/-- Does the token occur as a contiguous substring? -/
def occursTok (tok : List Char) : List Char → Bool
  | [] => tok.isEmpty
  | c :: rest => startsWithTok tok (c :: rest) || occursTok tok rest

/-- Python `s.replace(old, new)` for a nonempty `old` given as
`t :: ts`: replace each leftmost non-overlapping occurrence. -/
def replaceNE (t : Char) (ts repl : List Char) : List Char → List Char
  | [] => []
  | c :: rest =>
    if startsWithTok (t :: ts) (c :: rest) then
      repl ++ replaceNE t ts repl (rest.drop ts.length)
    else
      c :: replaceNE t ts repl rest
  termination_by s => s.length
  decreasing_by
  · simp only [List.length_drop, List.length_cons]; omega
  · simp only [List.length_cons]; omega

/-- Python `s.replace(old, new)` (empty `old` inserts `new` between all
characters and at both ends, as CPython does). -/
def pyReplace (s old repl : List Char) : List Char :=
  match old with
  | [] => repl ++ (s.map (fun c => c :: repl)).flatten
  | t :: ts => replaceNE t ts repl s

/-- The literal characters of the placeholder `"{KEY}"`. -/
def tokenOf (key : String) : List Char :=
  '\x7b' :: key.data ++ ['\x7d']

/-- Python `s.split(sep)` for a nonempty `sep` given as `t :: ts`:
split at each leftmost non-overlapping occurrence.  The result is
always nonempty. -/
def splitOnTok (t : Char) (ts : List Char) : List Char → List (List Char)
  | [] => [[]]
  | c :: rest =>
    if startsWithTok (t :: ts) (c :: rest) then
      [] :: splitOnTok t ts (rest.drop ts.length)
    else
      match splitOnTok t ts rest with
      | [] => [[c]]
      | x :: xs => (c :: x) :: xs
  termination_by s => s.length
  decreasing_by
  · simp only [List.length_drop, List.length_cons]; omega
  · simp only [List.length_cons]; omega

/-- The separator token `"---"` used by `load_templates`
(`raw.split("---")` in `server.py`). -/
def sepTok : List Char := ['-', '-', '-']

/-- Escape worker for Python `repr` of a string with quote character
`q` (non-printable characters other than tab, newline and carriage
return are left unescaped in this model). -/
def pyEscape (q : Char) : List Char → List Char
  | [] => []
  | c :: rest =>
    if c = '\\' || c = q then '\\' :: c :: pyEscape q rest
    else if c = '\n' then '\\' :: 'n' :: pyEscape q rest
    else if c = '\r' then '\\' :: 'r' :: pyEscape q rest
    else if c = '\t' then '\\' :: 't' :: pyEscape q rest
    else c :: pyEscape q rest

/-- Python `repr` of a string: single quotes, or double quotes when the
string contains `'` but no `"`. -/
def pyReprStr (s : String) : String :=
  if s.data.contains '\'' && !s.data.contains '"' then
    String.mk ('"' :: pyEscape '"' s.data ++ ['"'])
  else
    String.mk ('\'' :: pyEscape '\'' s.data ++ ['\''])

mutual

/-- Python `repr` of a JSON value. -/
def pyRepr : JVal → String
  | .jnull => "None"
  | .jbool true => "True"
  | .jbool false => "False"
  | .jnum n => toString n
  | .jstr s => pyReprStr s
  | .jarr xs => "[" ++ pyReprList xs ++ "]"
  | .jobj kvs => "\x7b" ++ pyReprObj kvs ++ "\x7d"

/-- Comma-separated `repr`s of the elements of a Python list. -/
def pyReprList : List JVal → String
  | [] => ""
  | [x] => pyRepr x
  | x :: y :: rest => pyRepr x ++ ", " ++ pyReprList (y :: rest)

/-- Comma-separated `repr(k): repr(v)` items of a Python dict. -/
def pyReprObj : List (String × JVal) → String
  | [] => ""
  | [(k, v)] => pyReprStr k ++ ": " ++ pyRepr v
  | (k, v) :: q :: rest => pyReprStr k ++ ": " ++ pyRepr v ++ ", " ++ pyReprObj (q :: rest)

end

/-- Python `str` of a JSON value (used by `str(...)` in
`render_template` and by f-string interpolation in error messages). -/
def pyStr : JVal → String
  | .jstr s => s
  | v => pyRepr v

/-- Python truthiness of a JSON value (`if not x`, `x or y`). -/
def pyTruthy : JVal → Bool
  | .jnull => false
  | .jbool b => b
  | .jnum n => n != 0
  | .jstr s => !s.isEmpty
  | .jarr xs => !xs.isEmpty
  | .jobj kvs => !kvs.isEmpty

/-- Truthiness of `d.get(k)`: `None` (absent) is falsy. -/
def optTruthy : Option JVal → Bool
  | none => false
  | some v => pyTruthy v

/-- Python `x == "lit"` for `x` a JSON value (only an equal string
compares equal to a string). -/
def jEqStr : Option JVal → String → Bool
  | some (.jstr s), lit => s == lit
  | _, _ => false

/-- Is the value hashable in Python (lists and dicts are not, so using
them as a dict key or in a `key in dict` test raises `TypeError`)? -/
def jHashable : JVal → Bool
  | .jarr _ => false
  | .jobj _ => false
  | _ => true

/-- The keys substituted by `render_template`, in the order of the
`for key in ("DAY", "DATE", "TIME")` loop in `server.py`. -/
def RENDER_KEYS : List String := ["DAY", "DATE", "TIME"]

/-- Function `render_template(body, fields)` from `server.py`:
`body = body.replace("\x7b" + key + "\x7d", str(fields.get(key, "")))`
for each key in order.  Field values are JSON values and go through
Python `str` (a missing key contributes `str("") = ""`). -/
def render_template (body : String) (fields : List (String × JVal)) : String :=
  String.mk (RENDER_KEYS.foldl
    (fun b key =>
      pyReplace b (tokenOf key)
        (match dictGet fields key with
         | some v => (pyStr v).data
         | none => []))
    body.data)

/-- The per-block computation of the `for block in blocks` loop of
`load_templates`: `block` is already stripped; the result is `none`
when the block is skipped (`if not block: continue` or
`if not title: continue`), and otherwise `some (title, body)` where
`title = lines[0].strip()` and
`body = "\n".join(lines[1:]).lstrip("\n")`. -/
def parseBlock (block : List Char) : Option (String × String) :=
  if block.isEmpty then none
  else if (pyStrip ((pySplitlines block).headD [])).isEmpty then none
  else some
    (String.mk (pyStrip ((pySplitlines block).headD [])),
     String.mk ((List.intercalate ['\n']
       ((pySplitlines block).drop 1)).dropWhile (fun c => c = '\n')))

/-- One iteration of the `for block in blocks` loop: skip, or insert
`templates[title] = body`. -/
def loadBlockStep (templates : List (String × String)) (block : List Char) :
    List (String × String) :=
  match parseBlock block with
  | none => templates
  | some (title, body) => dictInsert templates title body

/-- The list `[b.strip() for b in raw.split("---")]` from `load_templates`. -/
def blocksOf (raw : String) : List (List Char) :=
  (splitOnTok '-' ['-', '-'] raw.data).map pyStrip

/-- The `(title, body)` pairs of the blocks that are not skipped, in
block order. -/
def parsedBlocks (raw : String) : List (String × String) :=
  (blocksOf raw).filterMap parseBlock

/-- Function `load_templates` from `server.py`, applied to the text read from
the file: split the raw text on the token `"---"`, strip each block,
and fold the blocks into a dict mapping stripped titles to bodies. -/
def load_templates (raw : String) : List (String × String) :=
  (blocksOf raw).foldl loadBlockStep []

/-- Function `load_templates` including the `open(path)` call: the file system
is a map from path to contents, and a missing path raises
`FileNotFoundError` (there is no try/except around `open` in
`server.py`). -/
def load_templates_file (fs : List (String × String)) (path : String) :
    Except String (List (String × String)) :=
  match dictGet fs path with
  | none => .error "FileNotFoundError"
  | some raw => .ok (load_templates raw)

/-- Python `sorted(list(templates.keys()))`: a stable sort under
lexicographic string comparison. -/
def sortedKeys (templates : List (String × String)) : List String :=
  (dictKeys templates).mergeSort (fun a b => a ≤ b)

/-- Function `handle_request(req, templates)` from `server.py`.  The request is
a JSON object (string keys); the result is `.ok response` for a
returned response dict, or `.error` for an uncaught Python exception
(`title not in templates` raises `TypeError` when the title is an
unhashable JSON array or object). -/
def handle_request (req : List (String × JVal)) (templates : List (String × String)) :
    Except String (List (String × JVal)) :=
  let rtype := dictGet req "type"
  if !optTruthy rtype then
    .ok [("ok", .jbool false), ("error", .jstr "Missing request field: type")]
  else if jEqStr rtype "LIST_BUTTONS" then
    .ok [("ok", .jbool true), ("type", .jstr "LIST_BUTTONS"),
         ("buttons", .jarr ((sortedKeys templates).map .jstr))]
  else if jEqStr rtype "GET_TEMPLATE" then
    let title := (dictGet req "title").getD (.jstr "")
    if !jHashable title then .error "TypeError: unhashable type"
    else
      match title with
      | .jstr t =>
        match dictGet templates t with
        | none =>
          .ok [("ok", .jbool false), ("error", .jstr ("Unknown title: " ++ pyStr title))]
        | some body =>
          .ok [("ok", .jbool true), ("type", .jstr "GET_TEMPLATE"),
               ("title", title), ("body", .jstr body)]
      | _ =>
        .ok [("ok", .jbool false), ("error", .jstr ("Unknown title: " ++ pyStr title))]
  else if jEqStr rtype "RENDER_TEMPLATE" then
    let title := (dictGet req "title").getD (.jstr "")
    if !jHashable title then .error "TypeError: unhashable type"
    else
      match title with
      | .jstr t =>
        match dictGet templates t with
        | none =>
          .ok [("ok", .jbool false), ("error", .jstr ("Unknown title: " ++ pyStr title))]
        | some body =>
          let fields : JVal :=
            match dictGet req "fields" with
            | some v => if pyTruthy v then v else .jobj []
            | none => .jobj []
          match fields with
          | .jobj kvs =>
            .ok [("ok", .jbool true), ("type", .jstr "RENDER_TEMPLATE"),
                 ("title", title), ("body", .jstr (render_template body kvs))]
          | _ =>
            .ok [("ok", .jbool false), ("error", .jstr "fields must be an object/dict")]
      | _ =>
        .ok [("ok", .jbool false), ("error", .jstr ("Unknown title: " ++ pyStr title))]
  else
    .ok [("ok", .jbool false),
         ("error", .jstr ("Unknown request type: " ++ pyStr (rtype.getD .jnull)))]

/-- A string-valued fields mapping, embedded into JSON objects (the
`Dict[str, str]` annotation of `render_template`). -/
def strFields (fields : List (String × String)) : List (String × JVal) :=
  fields.map (fun p => (p.1, .jstr p.2))

/-- Group the lines of the raw text into blocks, where a separator is
exactly a line that consists of `"---"` and nothing else; each block is
re-joined with newlines. -/
def lineBlocks (raw : String) : List (List Char) :=
  ((pySplitlines raw.data).foldr
    (fun line groups =>
      if line = sepTok then [] :: groups
      else
        match groups with
        | [] => [[line]]
        | g :: gs => (line :: g) :: gs)
    [[]]).map (fun g => List.intercalate ['\n'] g)

/-- The loader as the specification's separator sentence describes it:
blocks are delimited by the lines containing only `"---"` (an embedded
`"---"` does not split), and each block is then parsed exactly as in
`load_templates`.  This definition follows the specification's words
and exists to be compared against `load_templates`, which follows the
code. -/
def load_templates_lineSpec (raw : String) : List (String × String) :=
  ((lineBlocks raw).map pyStrip).foldl loadBlockStep []

/-! ### Lemmas about the dict model -/

theorem find?_map_overwrite {α : Type} (k : String) (v : α) :
    ∀ d : List (String × α), d.any (fun p => p.1 == k) = true →
      List.find? (fun p => p.1 == k)
        (d.map (fun p => if p.1 == k then (k, v) else p)) = some (k, v) := by
  intro d
  induction d with
  | nil => simp
  | cons p tl ih =>
    intro hany
    by_cases hp : p.1 = k
    · simp [hp]
    · have hp' : (p.1 == k) = false := by simp [hp]
      simp only [List.map_cons, hp', if_false, List.find?_cons, Bool.false_eq_true]
      simp only [List.any_cons, hp', Bool.false_or] at hany
      exact ih hany

theorem find?_map_overwrite_ne {α : Type} (k k' : String) (v : α) (h : k' ≠ k) :
    ∀ d : List (String × α),
      List.find? (fun p => p.1 == k')
        (d.map (fun p => if p.1 == k then (k, v) else p)) =
      List.find? (fun p => p.1 == k') d := by
  intro d
  induction d with
  | nil => simp
  | cons p tl ih =>
    rw [List.map_cons]
    by_cases hp : p.1 = k
    · have h1 : ((k, v).1 == k') = false := by simp [Ne.symm h]
      have h2 : (p.1 == k') = false := by simp [hp, Ne.symm h]
      rw [if_pos (show (p.1 == k) = true by simp [hp])]
      simp only [List.find?_cons, h1, h2]
      exact ih
    · rw [if_neg (show ¬((p.1 == k) = true) by simp [hp])]
      by_cases hq : p.1 = k'
      · have h1 : (p.1 == k') = true := by simp [hq]
        simp only [List.find?_cons, h1]
      · have h1 : (p.1 == k') = false := by simp [hq]
        simp only [List.find?_cons, h1]
        exact ih

theorem dictGet_insert_self {α : Type} (d : List (String × α)) (k : String) (v : α) :
    dictGet (dictInsert d k v) k = some v := by
  unfold dictGet dictInsert
  by_cases hany : d.any (fun p => p.1 == k) = true
  · simp only [hany, if_true]
    rw [find?_map_overwrite k v d hany]
    rfl
  · have hnone : List.find? (fun p => p.1 == k) d = none := by
      rw [List.find?_eq_none]
      intro x hx hpx
      exact hany (List.any_eq_true.mpr ⟨x, hx, hpx⟩)
    simp [hany, hnone]

theorem dictGet_insert_ne {α : Type} (d : List (String × α)) (k k' : String) (v : α)
    (h : k' ≠ k) : dictGet (dictInsert d k v) k' = dictGet d k' := by
  unfold dictGet dictInsert
  by_cases hany : d.any (fun p => p.1 == k) = true
  · simp only [hany, if_true]
    rw [find?_map_overwrite_ne k k' v h d]
  · have hsingle : List.find? (fun p => p.1 == k') [(k, v)] = none := by
      simp [Ne.symm h]
    simp only [hany, Bool.false_eq_true, if_false, List.find?_append, hsingle]
    cases List.find? (fun p => p.1 == k') d <;> rfl

/-- Lookup after repeated insertion: the last inserted value for the
key wins, else fall back to the initial dict. -/
theorem dictGet_foldl_insert {α : Type} (k : String) :
    ∀ (kvs : List (String × α)) (d : List (String × α)),
      dictGet (kvs.foldl (fun t p => dictInsert t p.1 p.2) d) k =
      match kvs.reverse.find? (fun p => p.1 == k) with
      | some p => some p.2
      | none => dictGet d k := by
  intro kvs
  induction kvs with
  | nil => simp
  | cons p tl ih =>
    intro d
    simp only [List.foldl_cons, List.reverse_cons, List.find?_append]
    rw [ih]
    cases htl : tl.reverse.find? (fun q => q.1 == k) with
    | some q => simp
    | none =>
      simp only [Option.none_or]
      by_cases hp : p.1 = k
      · subst hp
        simp [dictGet_insert_self]
      · have hp' : (p.1 == k) = false := by simp [hp]
        simp [hp', dictGet_insert_ne d p.1 k p.2 (fun hh => hp hh.symm)]

theorem foldl_loadBlockStep_eq :
    ∀ (blocks : List (List Char)) (d : List (String × String)),
      blocks.foldl loadBlockStep d =
      (blocks.filterMap parseBlock).foldl (fun t p => dictInsert t p.1 p.2) d := by
  intro blocks
  induction blocks with
  | nil => simp
  | cons b bs ih =>
    intro d
    simp only [List.foldl_cons, List.filterMap_cons]
    cases hb : parseBlock b with
    | none => simp [loadBlockStep, hb, ih]
    | some p => cases p with
      | mk t body => simp [loadBlockStep, hb, ih]

/-- Full characterization of lookup in the loaded template store: the
body of the last non-skipped block whose title matches. -/
theorem dictGet_load_templates (raw : String) (k : String) :
    dictGet (load_templates raw) k =
      ((parsedBlocks raw).reverse.find? (fun p => p.1 == k)).map (fun p => p.2) := by
  unfold load_templates parsedBlocks
  rw [foldl_loadBlockStep_eq, dictGet_foldl_insert]
  cases ((blocksOf raw).filterMap parseBlock).reverse.find? (fun p => p.1 == k) <;>
    simp [dictGet]

theorem find?_eq_head?_filterL {α : Type} (p : α → Bool) :
    ∀ l : List α, l.find? p = (l.filter p).head? := by
  intro l
  induction l with
  | nil => simp
  | cons a tl ih =>
    cases h : p a with
    | true =>
      rw [List.find?_cons_of_pos _ h, List.filter_cons_of_pos h, List.head?_cons]
    | false =>
      rw [List.find?_cons_of_neg _ (by simp [h]), List.filter_cons_of_neg (by simp [h]), ih]

theorem find?_reverse_eq_getLast?_filter {α : Type} (p : α → Bool) (l : List α) :
    l.reverse.find? p = (l.filter p).getLast? := by
  rw [find?_eq_head?_filterL, List.filter_reverse, List.head?_reverse]

/-! ### Lemmas about `pyStrip` -/

theorem dropWhile_dropWhile {α : Type} (p : α → Bool) :
    ∀ l : List α, (l.dropWhile p).dropWhile p = l.dropWhile p := by
  intro l
  induction l with
  | nil => simp
  | cons c tl ih =>
    cases h : p c with
    | true => simp [List.dropWhile_cons, h, ih]
    | false => simp [List.dropWhile_cons, h]

theorem exists_append_dropWhile {α : Type} (p : α → Bool) :
    ∀ l : List α, ∃ t, t ++ l.dropWhile p = l := by
  intro l
  induction l with
  | nil => exact ⟨[], rfl⟩
  | cons c tl ih =>
    cases h : p c with
    | true =>
      obtain ⟨t, ht⟩ := ih
      exact ⟨c :: t, by simp [List.dropWhile_cons, h, ht]⟩
    | false => exact ⟨[], by simp [List.dropWhile_cons, h]⟩

theorem dropWhile_eq_self_of_head {α : Type} (p : α → Bool) (l : List α)
    (hfix : l.dropWhile p = l) {c : α} {l' : List α} (hl : l = c :: l') :
    p c = false := by
  cases h : p c with
  | false => rfl
  | true =>
    exfalso
    rw [hl, List.dropWhile_cons, h] at hfix
    have hlen := (List.dropWhile_sublist (l := l') p).length_le
    have := congrArg List.length hfix
    simp only [List.length_cons, if_true] at this
    omega

theorem pyStrip_idem (s : List Char) : pyStrip (pyStrip s) = pyStrip s := by
  unfold pyStrip
  set u := s.dropWhile pyIsSpace with hu_def
  have hu : u.dropWhile pyIsSpace = u := dropWhile_dropWhile pyIsSpace s
  set w := (u.reverse.dropWhile pyIsSpace).reverse with hw_def
  have hwrev : w.reverse.dropWhile pyIsSpace = w.reverse := by
    rw [hw_def, List.reverse_reverse]
    exact dropWhile_dropWhile pyIsSpace u.reverse
  have hw : w.dropWhile pyIsSpace = w := by
    obtain ⟨t, ht⟩ := exists_append_dropWhile pyIsSpace u.reverse
    have hwt : w ++ t.reverse = u := by
      have := congrArg List.reverse ht
      simp only [List.reverse_append, List.reverse_reverse] at this
      exact this
    cases hwc : w with
    | nil => simp
    | cons c w' =>
      have hu_eq : u = c :: (w' ++ t.reverse) := by
        rw [← hwt, hwc]; simp
      have hc : pyIsSpace c = false :=
        dropWhile_eq_self_of_head pyIsSpace u hu hu_eq
      rw [List.dropWhile_cons, hc]
      simp
  rw [hw, hwrev, List.reverse_reverse]

/-! ### Properties of parsed blocks -/

theorem parseBlock_eq_some {block : List Char} {t b : String}
    (h : parseBlock block = some (t, b)) :
    t ≠ "" ∧ pyStrip t.data = t.data := by
  unfold parseBlock at h
  by_cases h1 : block.isEmpty = true
  · rw [if_pos h1] at h; cases h
  · rw [if_neg h1] at h
    by_cases h2 : (pyStrip ((pySplitlines block).headD [])).isEmpty = true
    · rw [if_pos h2] at h; cases h
    · rw [if_neg h2] at h
      injection h with h3
      rw [Prod.mk.injEq] at h3
      obtain ⟨h4, h5⟩ := h3
      subst h4
      constructor
      · intro hcon
        have hnil : pyStrip ((pySplitlines block).headD []) = [] :=
          congrArg String.data hcon
        rw [hnil] at h2
        exact h2 rfl
      · exact pyStrip_idem _

/-! ### Claim C6: load/lookup round-trip -/

unseal splitOnTok replaceNE splitlinesAux in
/-- Counterexample to C6 as stated: in the source
`"A\nb1\n---\nA\nb2"` the first block is valid and parses to
`("A", "b1")`, yet looking up `"A"` in the loaded store does not
return `"b1"` (a later block with the same title overwrote it). -/
theorem counterexample_C6_duplicate_title :
    ("A", "b1") ∈ parsedBlocks "A\nb1\n---\nA\nb2" ∧
    dictGet (load_templates "A\nb1\n---\nA\nb2") "A" ≠ some "b1" := by
  constructor
  · decide
  · decide

/-- C6 (amended): for every valid block of the source whose trimmed
title is not the title of any later valid block, looking up that title
in the mapping returned by `load_templates` yields exactly the block's
parsed body. -/
theorem claim_C6_roundtrip (raw : String) (l₁ l₂ : List (String × String))
    (p : String × String)
    (hsplit : parsedBlocks raw = l₁ ++ p :: l₂)
    (hnolater : ∀ q ∈ l₂, q.1 ≠ p.1) :
    dictGet (load_templates raw) p.1 = some p.2 := by
  rw [dictGet_load_templates, hsplit, List.reverse_append, List.reverse_cons,
    List.find?_append, List.find?_append]
  have h2 : l₂.reverse.find? (fun q => q.1 == p.1) = none := by
    rw [List.find?_eq_none]
    intro x hx
    rw [List.mem_reverse] at hx
    simp [hnolater x hx]
  have h3 : List.find? (fun q => q.1 == p.1) [p] = some p := by simp
  rw [h2, h3]
  rfl

unseal splitOnTok replaceNE splitlinesAux in
theorem claim_C6_roundtrip_witness :
    dictGet (load_templates "A\nb1\n---\nB\nb2") "A" = some "b1" :=
  claim_C6_roundtrip "A\nb1\n---\nB\nb2" [] [("B", "b2")] ("A", "b1")
    (by decide) (by decide)

/-! ### Claim C7: duplicate titles, last block wins -/

/-- C7: when a title occurs in two or more parsed blocks, the loaded
mapping sends it to the body of the last such block. -/
theorem claim_C7_last_wins (raw : String) (t : String) (p : String × String)
    (hdup : 2 ≤ ((parsedBlocks raw).filter (fun q => q.1 == t)).length)
    (hlast : ((parsedBlocks raw).filter (fun q => q.1 == t)).getLast? = some p) :
    dictGet (load_templates raw) t = some p.2 := by
  rw [dictGet_load_templates, find?_reverse_eq_getLast?_filter, hlast]
  rfl

unseal splitOnTok replaceNE splitlinesAux in
theorem claim_C7_last_wins_witness :
    dictGet (load_templates "A\nb1\n---\nA\nb2") "A" = some "b2" :=
  claim_C7_last_wins "A\nb1\n---\nA\nb2" "A" ("A", "b2") (by decide) (by decide)

/-! ### Claim C8: empty input and missing file -/

/-- Counterexample to C8 as stated: with no file present,
`load_templates` (through `open`) raises `FileNotFoundError` instead of
returning an empty mapping — `server.py` has no try/except around
`open(path)`. -/
theorem counterexample_C8_missing_file :
    load_templates_file [] "templates.txt" = .error "FileNotFoundError" ∧
    ∀ d : List (String × String), load_templates_file [] "templates.txt" ≠ .ok d := by
  constructor
  · rfl
  · intro d h
    cases h

/-- C8 (amended): on any text whose stripped blocks are all empty — in
particular the empty text or separator-only text — `load_templates`
returns the empty mapping (and, being a total function of the text,
raises nothing); a missing file, by contrast, raises
`FileNotFoundError`. -/
theorem claim_C8_empty_input (raw : String) (fs : List (String × String))
    (path : String) :
    ((∀ b ∈ blocksOf raw, b = []) → load_templates raw = []) ∧
    (dictGet fs path = none →
      load_templates_file fs path = .error "FileNotFoundError") := by
  constructor
  · intro h
    unfold load_templates
    have haux : ∀ (blocks : List (List Char)) (d : List (String × String)),
        (∀ b ∈ blocks, b = []) → blocks.foldl loadBlockStep d = d := by
      intro blocks
      induction blocks with
      | nil => intro d _; rfl
      | cons b bs ih =>
        intro d hb
        have hb0 : b = [] := hb b (by simp)
        subst hb0
        rw [List.foldl_cons]
        have hstep : loadBlockStep d [] = d := by
          unfold loadBlockStep parseBlock
          rfl
        rw [hstep]
        exact ih d (fun b hbm => hb b (by simp [hbm]))
    exact haux _ _ h
  · intro h
    unfold load_templates_file
    rw [h]

unseal splitOnTok replaceNE splitlinesAux in
theorem claim_C8_empty_input_witness :
    load_templates "---\n---" = [] ∧ load_templates "" = [] ∧
    load_templates_file [] "p" = .error "FileNotFoundError" :=
  ⟨(claim_C8_empty_input "---\n---" [] "p").1 (by decide),
   (claim_C8_empty_input "" [] "p").1 (by decide),
   (claim_C8_empty_input "" [] "p").2 (by decide)⟩

/-! ### Claim C10: store keys are non-empty and trimmed -/

theorem mem_dictKeys {α : Type} (d : List (String × α)) (k : String) :
    k ∈ dictKeys d ↔ ∃ p ∈ d, p.1 = k := by
  simp [dictKeys, List.mem_map]

theorem mem_dictInsert {α : Type} (d : List (String × α)) (k0 : String) (v : α)
    (p : String × α) (hp : p ∈ dictInsert d k0 v) : p ∈ d ∨ p.1 = k0 := by
  unfold dictInsert at hp
  by_cases hany : d.any (fun q => q.1 == k0) = true
  · rw [if_pos hany] at hp
    obtain ⟨x, hx, hfx⟩ := List.mem_map.mp hp
    by_cases hxk : (x.1 == k0) = true
    · rw [if_pos hxk] at hfx
      right
      rw [← hfx]
    · rw [if_neg hxk] at hfx
      left
      rw [← hfx]
      exact hx
  · rw [if_neg hany] at hp
    rcases List.mem_append.mp hp with h | h
    · exact Or.inl h
    · right
      rw [List.mem_singleton.mp h]

theorem mem_foldl_insert {α : Type} :
    ∀ (kvs : List (String × α)) (d : List (String × α)) (p : String × α),
      p ∈ kvs.foldl (fun t q => dictInsert t q.1 q.2) d →
      p ∈ d ∨ ∃ q ∈ kvs, q.1 = p.1 := by
  intro kvs
  induction kvs with
  | nil => intro d p hp; exact Or.inl hp
  | cons q kvs ih =>
    intro d p hp
    rw [List.foldl_cons] at hp
    rcases ih _ p hp with h | ⟨r, hr, hrk⟩
    · rcases mem_dictInsert _ _ _ _ h with h' | h'
      · exact Or.inl h'
      · exact Or.inr ⟨q, by simp, h'.symm⟩
    · exact Or.inr ⟨r, by simp [hr], hrk⟩

/-- No key of a loaded store is the empty string. -/
theorem dictGet_load_templates_empty (raw : String) :
    dictGet (load_templates raw) "" = none := by
  rw [dictGet_load_templates]
  have hnone : (parsedBlocks raw).reverse.find? (fun p => p.1 == "") = none := by
    rw [List.find?_eq_none]
    intro x hx
    rw [List.mem_reverse] at hx
    obtain ⟨block, _, hpb⟩ := List.mem_filterMap.mp hx
    have hprop := parseBlock_eq_some (t := x.1) (b := x.2) hpb
    simp [hprop.1]
  rw [hnone]
  rfl

/-- C10: every key of a loaded store is a non-empty string that is
fixed by stripping (no surrounding whitespace); consequently a
`GET_TEMPLATE` or `RENDER_TEMPLATE` request whose title is absent or
the empty string always receives the unknown-title error. -/
theorem claim_C10_keys_nonempty_trimmed (raw : String) :
    (∀ k ∈ dictKeys (load_templates raw), k ≠ "" ∧ pyStrip k.data = k.data) ∧
    (∀ req : List (String × JVal),
      (dictGet req "type" = some (.jstr "GET_TEMPLATE") ∨
       dictGet req "type" = some (.jstr "RENDER_TEMPLATE")) →
      (dictGet req "title" = none ∨ dictGet req "title" = some (.jstr "")) →
      handle_request req (load_templates raw) =
        .ok [("ok", .jbool false), ("error", .jstr "Unknown title: ")]) := by
  constructor
  · intro k hk
    obtain ⟨p, hp, hpk⟩ := (mem_dictKeys _ k).mp hk
    have hload : load_templates raw =
        (parsedBlocks raw).foldl (fun t q => dictInsert t q.1 q.2) [] := by
      unfold load_templates parsedBlocks
      exact foldl_loadBlockStep_eq _ _
    rw [hload] at hp
    rcases mem_foldl_insert _ _ _ hp with h | ⟨q, hq, hqk⟩
    · cases h
    · obtain ⟨block, _, hpb⟩ := List.mem_filterMap.mp hq
      have hprop := parseBlock_eq_some (t := q.1) (b := q.2) hpb
      rw [hqk, hpk] at hprop
      exact hprop
  · intro req hty hti
    have hlook := dictGet_load_templates_empty raw
    have htitle : (dictGet req "title").getD (.jstr "") = .jstr "" := by
      rcases hti with h | h <;> rw [h] <;> rfl
    rcases hty with h | h <;>
      simp +decide [handle_request, h, optTruthy, pyTruthy, jEqStr, jHashable,
        htitle, hlook, pyStr]

unseal splitOnTok splitlinesAux in
theorem claim_C10_keys_nonempty_trimmed_witness :
    ("Greeting" ≠ "" ∧ pyStrip "Greeting".data = "Greeting".data) ∧
    handle_request [("type", .jstr "GET_TEMPLATE")] (load_templates "Greeting\nHello") =
      .ok [("ok", .jbool false), ("error", .jstr "Unknown title: ")] :=
  ⟨(claim_C10_keys_nonempty_trimmed "Greeting\nHello").1 "Greeting" (by decide),
   (claim_C10_keys_nonempty_trimmed "Greeting\nHello").2
     [("type", .jstr "GET_TEMPLATE")] (Or.inl rfl) (Or.inl rfl)⟩

/-! ### Claim C9: falsy `type` values get the missing-field error -/

/-- C9: a request whose `type` member is present but is a falsy JSON
value (`""`, `0`, `false` or `null`) is answered with
`"Missing request field: type"`, which is not an
`"Unknown request type: ..."` message. -/
theorem claim_C9_falsy_type (req : List (String × JVal))
    (templates : List (String × String)) (v : JVal)
    (hv : dictGet req "type" = some v)
    (hfalsy : v = .jstr "" ∨ v = .jnum 0 ∨ v = .jbool false ∨ v = .jnull) :
    handle_request req templates =
      .ok [("ok", .jbool false), ("error", .jstr "Missing request field: type")] ∧
    ∀ s : String,
      ("Missing request field: type" : String) ≠ "Unknown request type: " ++ s := by
  constructor
  · rcases hfalsy with h | h | h | h <;> subst h <;>
      simp +decide [handle_request, hv, optTruthy, pyTruthy]
  · intro s h
    have hd : ("Missing request field: type" : String).data.head? =
        ("Unknown request type: " ++ s).data.head? := by rw [h]
    have h2 : ("Unknown request type: " ++ s).data.head? = some 'U' := by
      rw [String.data_append]
      rfl
    rw [h2] at hd
    cases hd

theorem claim_C9_falsy_type_witness :
    handle_request [("type", .jnum 0)] [] =
      .ok [("ok", .jbool false), ("error", .jstr "Missing request field: type")] :=
  (claim_C9_falsy_type [("type", .jnum 0)] [] (.jnum 0) rfl
    (Or.inr (Or.inl rfl))).1

/-! ### Claim C4: validation of the `fields` member -/

unseal replaceNE in
/-- Counterexample to C4 as stated: `fields = false` is not a
key/value mapping, yet the router renders successfully instead of
returning the `"fields must be an object/dict"` error, because
`req.get("fields") or {}` silently turns every falsy value into an
empty dict. -/
theorem counterexample_C4_falsy_fields :
    handle_request
      [("type", .jstr "RENDER_TEMPLATE"), ("title", .jstr "T"), ("fields", .jbool false)]
      [("T", "B")] =
      .ok [("ok", .jbool true), ("type", .jstr "RENDER_TEMPLATE"),
           ("title", .jstr "T"), ("body", .jstr "B")] ∧
    handle_request
      [("type", .jstr "RENDER_TEMPLATE"), ("title", .jstr "T"), ("fields", .jbool false)]
      [("T", "B")] ≠
      .ok [("ok", .jbool false), ("error", .jstr "fields must be an object/dict")] := by
  constructor
  · rfl
  · intro h
    injection h with h'
    simp at h'

/-- C4 (amended): for a `RENDER_TEMPLATE` request whose title is in the
store, a `fields` member that is absent or falsy (`null`, `false`, `0`,
`""`, `[]`, `{}`) is replaced by an empty mapping and rendering
proceeds; only a truthy non-mapping `fields` value produces the
`"fields must be an object/dict"` error. -/
theorem claim_C4_fields_validation (req : List (String × JVal))
    (store : List (String × String)) (ts body : String)
    (hty : dictGet req "type" = some (.jstr "RENDER_TEMPLATE"))
    (hti : dictGet req "title" = some (.jstr ts))
    (hbody : dictGet store ts = some body) :
    ((dictGet req "fields" = none ∨
        (∃ v, dictGet req "fields" = some v ∧ pyTruthy v = false)) →
      handle_request req store =
        .ok [("ok", .jbool true), ("type", .jstr "RENDER_TEMPLATE"),
             ("title", .jstr ts), ("body", .jstr (render_template body []))]) ∧
    (∀ v, dictGet req "fields" = some v → pyTruthy v = true →
      (∀ kvs, v ≠ .jobj kvs) →
      handle_request req store =
        .ok [("ok", .jbool false), ("error", .jstr "fields must be an object/dict")]) := by
  constructor
  · intro hf
    rcases hf with hf | ⟨v, hf, hfv⟩
    · simp +decide [handle_request, hty, hti, hbody, hf, optTruthy, pyTruthy,
        jEqStr, jHashable]
    · simp only [handle_request, hty, hti, hbody, hf]
      rw [hfv]
      simp +decide [optTruthy, pyTruthy, jEqStr, jHashable, hbody]
  · intro v hf htr hnotobj
    cases v with
    | jobj kvs => exact absurd rfl (hnotobj kvs)
    | jnull => cases htr
    | jbool b =>
      cases b with
      | false => cases htr
      | true =>
        simp +decide [handle_request, hty, hti, hbody, hf, optTruthy, pyTruthy,
          jEqStr, jHashable]
    | jnum n =>
      simp only [pyTruthy] at htr
      simp +decide [handle_request, hty, hti, hbody, hf, optTruthy, pyTruthy,
        jEqStr, jHashable, htr]
    | jstr s =>
      simp only [pyTruthy] at htr
      simp +decide [handle_request, hty, hti, hbody, hf, optTruthy, pyTruthy,
        jEqStr, jHashable, htr]
    | jarr xs =>
      simp only [pyTruthy] at htr
      simp +decide [handle_request, hty, hti, hbody, hf, optTruthy, pyTruthy,
        jEqStr, jHashable, htr]

unseal replaceNE in
theorem claim_C4_fields_validation_witness :
    handle_request
      [("type", .jstr "RENDER_TEMPLATE"), ("title", .jstr "T"), ("fields", .jnull)]
      [("T", "B")] =
      .ok [("ok", .jbool true), ("type", .jstr "RENDER_TEMPLATE"),
           ("title", .jstr "T"), ("body", .jstr (render_template "B" []))] ∧
    handle_request
      [("type", .jstr "RENDER_TEMPLATE"), ("title", .jstr "T"),
       ("fields", .jarr [.jnum 1])] [("T", "B")] =
      .ok [("ok", .jbool false), ("error", .jstr "fields must be an object/dict")] :=
  ⟨(claim_C4_fields_validation
      [("type", .jstr "RENDER_TEMPLATE"), ("title", .jstr "T"), ("fields", .jnull)]
      [("T", "B")] "T" "B" rfl rfl rfl).1 (Or.inr ⟨.jnull, rfl, rfl⟩),
   (claim_C4_fields_validation
      [("type", .jstr "RENDER_TEMPLATE"), ("title", .jstr "T"), ("fields", .jarr [.jnum 1])]
      [("T", "B")] "T" "B" rfl rfl rfl).2
      (.jarr [.jnum 1]) rfl rfl (fun kvs h => nomatch h)⟩

/-! ### Claim C1: response shape invariant -/

/-- Counterexample to C1 as stated: a `GET_TEMPLATE` request whose
`title` is a JSON array makes `title not in templates` raise
`TypeError` (lists are unhashable), so `handle_request` returns no
response dict at all — neither a success payload nor an error message
is produced. -/
theorem counterexample_C1_unhashable_title :
    handle_request [("type", .jstr "GET_TEMPLATE"), ("title", .jarr [])] [] =
      .error "TypeError: unhashable type" ∧
    ∀ r : List (String × JVal),
      handle_request [("type", .jstr "GET_TEMPLATE"), ("title", .jarr [])] [] ≠
        .ok r := by
  constructor
  · rfl
  · intro r h
    cases h

/-- C1 (amended): whenever `handle_request` returns a response dict
(i.e. does not raise `TypeError` on an unhashable title), that response
contains exactly one of a success payload (a `type` field, with `ok`
true and no `error` field) or a single error message string (an `error`
field, with `ok` false and no payload fields). -/
theorem claim_C1_response_shape (req : List (String × JVal))
    (templates : List (String × String)) (r : List (String × JVal))
    (h : handle_request req templates = .ok r) :
    (dictGet r "ok" = some (.jbool true) ∧
     (∃ s, dictGet r "type" = some (.jstr s)) ∧
     dictGet r "error" = none) ∨
    (dictGet r "ok" = some (.jbool false) ∧
     (∃ s, dictGet r "error" = some (.jstr s)) ∧
     dictGet r "type" = none ∧ dictGet r "buttons" = none ∧
     dictGet r "title" = none ∧ dictGet r "body" = none) := by
  simp only [handle_request] at h
  repeat' split at h
  all_goals
    first
    | exact Except.noConfusion h
    | (injection h with h'
       subst h'
       first
       | exact Or.inl ⟨rfl, ⟨_, rfl⟩, rfl⟩
       | exact Or.inr ⟨rfl, ⟨_, rfl⟩, rfl, rfl, rfl, rfl⟩)

theorem claim_C1_response_shape_witness :
    (dictGet [("ok", JVal.jbool false),
        ("error", JVal.jstr "Missing request field: type")] "ok" =
          some (.jbool false) ∧
     (∃ s, dictGet [("ok", JVal.jbool false),
        ("error", JVal.jstr "Missing request field: type")] "error" =
          some (.jstr s)) ∧
     dictGet [("ok", JVal.jbool false),
        ("error", JVal.jstr "Missing request field: type")] "type" = none ∧
     dictGet [("ok", JVal.jbool false),
        ("error", JVal.jstr "Missing request field: type")] "buttons" = none ∧
     dictGet [("ok", JVal.jbool false),
        ("error", JVal.jstr "Missing request field: type")] "title" = none ∧
     dictGet [("ok", JVal.jbool false),
        ("error", JVal.jstr "Missing request field: type")] "body" = none) ∨
    (dictGet [("ok", JVal.jbool false),
        ("error", JVal.jstr "Missing request field: type")] "ok" =
          some (.jbool true) ∧
     (∃ s, dictGet [("ok", JVal.jbool false),
        ("error", JVal.jstr "Missing request field: type")] "type" =
          some (.jstr s)) ∧
     dictGet [("ok", JVal.jbool false),
        ("error", JVal.jstr "Missing request field: type")] "error" = none) :=
  (claim_C1_response_shape [] [] _ rfl).symm

/-! ### Claim C2: LIST_BUTTONS returns the sorted titles -/

/-- C2: any request whose `type` is `LIST_BUTTONS` succeeds with
`buttons` equal to the store's titles sorted lexicographically
ascending; the result is a permutation of the key set, is sorted, and
is identical for any two stores with the same key set (independence
from load order). -/
theorem claim_C2_list_buttons (req : List (String × JVal))
    (store store' : List (String × String))
    (hty : dictGet req "type" = some (.jstr "LIST_BUTTONS"))
    (hperm : (dictKeys store).Perm (dictKeys store')) :
    handle_request req store =
      .ok [("ok", .jbool true), ("type", .jstr "LIST_BUTTONS"),
           ("buttons", .jarr ((sortedKeys store).map .jstr))] ∧
    (sortedKeys store).Perm (dictKeys store) ∧
    List.Sorted (· ≤ ·) (sortedKeys store) ∧
    sortedKeys store = sortedKeys store' := by
  refine ⟨?_, ?_, ?_, ?_⟩
  · simp +decide [handle_request, hty, optTruthy, pyTruthy, jEqStr]
  · exact List.mergeSort_perm _ _
  · exact List.sorted_mergeSort' _
  · exact List.eq_of_perm_of_sorted
      (((List.mergeSort_perm _ _).trans hperm).trans (List.mergeSort_perm _ _).symm)
      (List.sorted_mergeSort' _) (List.sorted_mergeSort' _)

unseal List.mergeSort List.merge in
theorem claim_C2_list_buttons_witness :
    handle_request [("type", .jstr "LIST_BUTTONS")] [("b", "2"), ("a", "1")] =
      .ok [("ok", .jbool true), ("type", .jstr "LIST_BUTTONS"),
           ("buttons", .jarr ((sortedKeys [("b", "2"), ("a", "1")]).map .jstr))] ∧
    sortedKeys [("b", "2"), ("a", "1")] = sortedKeys [("a", "1"), ("b", "2")] :=
  ⟨(claim_C2_list_buttons [("type", .jstr "LIST_BUTTONS")]
      [("b", "2"), ("a", "1")] [("a", "1"), ("b", "2")] rfl (by decide)).1,
   (claim_C2_list_buttons [("type", .jstr "LIST_BUTTONS")]
      [("b", "2"), ("a", "1")] [("a", "1"), ("b", "2")] rfl (by decide)).2.2.2⟩

/-! ### Claim C3: placeholder substitution -/

theorem replaceNE_not_occurs (t : Char) (ts repl : List Char) :
    ∀ s : List Char, occursTok (t :: ts) s = false → replaceNE t ts repl s = s := by
  intro s
  induction s with
  | nil => intro _; simp [replaceNE]
  | cons c rest ih =>
    intro h
    rw [occursTok, Bool.or_eq_false_iff] at h
    obtain ⟨h1, h2⟩ := h
    simp only [replaceNE]
    rw [if_neg (by simp [h1]), ih h2]

theorem pyReplace_not_occurs (s tok repl : List Char) (t : Char) (ts : List Char)
    (htok : tok = t :: ts) (h : occursTok tok s = false) :
    pyReplace s tok repl = s := by
  subst htok
  simp only [pyReplace]
  exact replaceNE_not_occurs t ts repl s h

theorem dictGet_strFields (fields : List (String × String)) (k : String) :
    dictGet (strFields fields) k = (dictGet fields k).map .jstr := by
  unfold dictGet strFields
  rw [List.find?_map]
  have hcomp : ((fun p : String × JVal => p.1 == k) ∘
      (fun p : String × String => (p.1, JVal.jstr p.2))) =
      (fun p : String × String => p.1 == k) := rfl
  rw [hcomp]
  cases List.find? (fun p : String × String => p.1 == k) fields <;> rfl

/-- C3: `render_template` substitutes exactly the tokens `"{DAY}"`,
`"{DATE}"`, `"{TIME}"`, in that order, each replaced everywhere by the
corresponding field value (empty string when the key is absent); a body
containing none of the three tokens — e.g. one with only
placeholder-like tokens such as `"{FOO}"` — is returned unchanged, and
fields mappings agreeing on the three keys render identically (extra
keys have no effect). -/
theorem claim_C3_render_substitution (body : String)
    (fields : List (String × String)) (g1 g2 : List (String × JVal)) :
    (render_template body (strFields fields) =
      String.mk (pyReplace (pyReplace (pyReplace body.data (tokenOf "DAY")
        ((dictGet fields "DAY").getD "").data) (tokenOf "DATE")
        ((dictGet fields "DATE").getD "").data) (tokenOf "TIME")
        ((dictGet fields "TIME").getD "").data)) ∧
    (occursTok (tokenOf "DAY") body.data = false →
     occursTok (tokenOf "DATE") body.data = false →
     occursTok (tokenOf "TIME") body.data = false →
     render_template body g1 = body) ∧
    ((∀ k ∈ RENDER_KEYS, dictGet g1 k = dictGet g2 k) →
      render_template body g1 = render_template body g2) := by
  refine ⟨?_, ?_, ?_⟩
  · simp only [render_template, RENDER_KEYS, List.foldl_cons, List.foldl_nil,
      dictGet_strFields]
    cases h1 : dictGet fields "DAY" <;> cases h2 : dictGet fields "DATE" <;>
      cases h3 : dictGet fields "TIME" <;> simp [pyStr]
  · intro h1 h2 h3
    simp only [render_template, RENDER_KEYS, List.foldl_cons, List.foldl_nil]
    rw [pyReplace_not_occurs _ (tokenOf "DAY") _ '\x7b' ("DAY".data ++ ['\x7d']) rfl h1,
      pyReplace_not_occurs _ (tokenOf "DATE") _ '\x7b' ("DATE".data ++ ['\x7d']) rfl h2,
      pyReplace_not_occurs _ (tokenOf "TIME") _ '\x7b' ("TIME".data ++ ['\x7d']) rfl h3]
  · intro hagree
    have e1 := hagree "DAY" (by simp [RENDER_KEYS])
    have e2 := hagree "DATE" (by simp [RENDER_KEYS])
    have e3 := hagree "TIME" (by simp [RENDER_KEYS])
    simp only [render_template, RENDER_KEYS, List.foldl_cons, List.foldl_nil, e1, e2, e3]

unseal replaceNE in
theorem claim_C3_render_substitution_witness :
    render_template "No \x7bFOO\x7d here" [("DAY", .jstr "Mon")] =
      "No \x7bFOO\x7d here" ∧
    render_template "Hi \x7bDAY\x7d" [("DAY", .jstr "Mon"), ("X", .jstr "y")] =
      render_template "Hi \x7bDAY\x7d" [("DAY", .jstr "Mon")] ∧
    render_template "Hi \x7bDAY\x7d" (strFields [("DAY", "Mon")]) =
      String.mk (pyReplace (pyReplace (pyReplace "Hi \x7bDAY\x7d".data
        (tokenOf "DAY") ((dictGet [("DAY", "Mon")] "DAY").getD "").data)
        (tokenOf "DATE") ((dictGet [("DAY", "Mon")] "DATE").getD "").data)
        (tokenOf "TIME") ((dictGet [("DAY", "Mon")] "TIME").getD "").data) :=
  ⟨(claim_C3_render_substitution "No \x7bFOO\x7d here" []
      [("DAY", .jstr "Mon")] []).2.1 (by decide) (by decide) (by decide),
   (claim_C3_render_substitution "Hi \x7bDAY\x7d" []
      [("DAY", .jstr "Mon"), ("X", .jstr "y")] [("DAY", .jstr "Mon")]).2.2
      (by intro k hk; fin_cases hk <;> rfl),
   (claim_C3_render_substitution "Hi \x7bDAY\x7d" [("DAY", "Mon")] [] []).1⟩

/-! ### Claim C5: the separator is the token `"---"`, not a line -/

theorem dropWhile_eq_self_of {α : Type} (p : α → Bool) (l : List α)
    (h : ∀ c ∈ l, p c = false) : l.dropWhile p = l := by
  cases l with
  | nil => rfl
  | cons c rest =>
    rw [List.dropWhile_cons, h c (by simp)]
    simp

theorem pyStrip_no_space (s : List Char) (h : ∀ c ∈ s, pyIsSpace c = false) :
    pyStrip s = s := by
  unfold pyStrip
  rw [dropWhile_eq_self_of _ _ h]
  rw [dropWhile_eq_self_of _ _ (fun c hc => h c (List.mem_reverse.mp hc))]
  exact List.reverse_reverse s

theorem splitlinesAux_no_break :
    ∀ s : List Char, (∀ c ∈ s, isLineBreakChar c = false) →
      ∀ acc : List Char, (acc.isEmpty = true → s ≠ []) →
        splitlinesAux s acc = [acc.reverse ++ s] := by
  intro s
  induction s with
  | nil =>
    intro _ acc hne
    cases hacc : acc.isEmpty with
    | true => exact absurd rfl (hne hacc)
    | false => simp [splitlinesAux, hacc]
  | cons c rest ih =>
    intro h acc _
    have hc : isLineBreakChar c = false := h c (by simp)
    have hcr : ¬(c = '\r') := by
      intro hcon
      rw [hcon] at hc
      cases hc
    simp only [splitlinesAux]
    rw [if_neg hcr, if_neg (by simp [hc])]
    rw [ih (fun x hx => h x (by simp [hx])) (c :: acc) (fun hemp => absurd hemp (by simp))]
    simp

theorem pySplitlines_single (s : List Char) (hne : s ≠ [])
    (h : ∀ c ∈ s, isLineBreakChar c = false) : pySplitlines s = [s] := by
  unfold pySplitlines
  rw [splitlinesAux_no_break s h [] (fun _ => hne)]
  rfl

theorem parseBlock_plain (block : List Char) (hne : block ≠ [])
    (hns : ∀ c ∈ block, pyIsSpace c = false)
    (hnb : ∀ c ∈ block, isLineBreakChar c = false) :
    parseBlock block = some (String.mk block, "") := by
  have h1 : block.isEmpty = false := by
    cases block with
    | nil => exact absurd rfl hne
    | cons c rest => rfl
  unfold parseBlock
  rw [pySplitlines_single block hne hnb]
  simp only [List.headD_cons, List.drop_succ_cons, List.drop_nil]
  rw [pyStrip_no_space block hns]
  rw [if_neg (by simp [h1]), if_neg (by simp [h1])]
  rfl

theorem splitOnTok_no_dash :
    ∀ b : List Char, (∀ c ∈ b, c ≠ '-') → splitOnTok '-' ['-', '-'] b = [b] := by
  intro b
  induction b with
  | nil => intro _; simp [splitOnTok]
  | cons c rest ih =>
    intro h
    have hc : c ≠ '-' := h c (by simp)
    simp only [splitOnTok]
    rw [if_neg (by simp [startsWithTok, Ne.symm hc])]
    rw [ih (fun x hx => h x (by simp [hx]))]

theorem splitOnTok_embedded :
    ∀ a b : List Char, (∀ c ∈ a, c ≠ '-') → (∀ c ∈ b, c ≠ '-') →
      splitOnTok '-' ['-', '-'] (a ++ sepTok ++ b) = [a, b] := by
  intro a
  induction a with
  | nil =>
    intro b _ hb
    show splitOnTok '-' ['-', '-'] ('-' :: '-' :: '-' :: b) = [[], b]
    simp only [splitOnTok]
    rw [if_pos (by simp [startsWithTok])]
    show [] :: splitOnTok '-' ['-', '-'] b = [[], b]
    rw [splitOnTok_no_dash b hb]
  | cons c a' ih =>
    intro b ha hb
    have hc : c ≠ '-' := ha c (by simp)
    show splitOnTok '-' ['-', '-'] (c :: (a' ++ sepTok ++ b)) = [c :: a', b]
    simp only [splitOnTok]
    rw [if_neg (by simp [startsWithTok, Ne.symm hc])]
    rw [ih b (fun x hx => ha x (by simp [hx])) hb]

/-- C5 (amended): `load_templates` splits at every occurrence of the
token `"---"`, including one embedded inside a single line: a one-line
source `a ++ "---" ++ b` (with `a`, `b` free of `'-'`, whitespace and
line breaks, non-empty and distinct) yields the two templates `a` and
`b`, not one template titled `a---b`. -/
theorem claim_C5_token_split (a b : List Char)
    (hane : a ≠ []) (hbne : b ≠ []) (hab : a ≠ b)
    (ha : ∀ c ∈ a, c ≠ '-' ∧ pyIsSpace c = false ∧ isLineBreakChar c = false)
    (hb : ∀ c ∈ b, c ≠ '-' ∧ pyIsSpace c = false ∧ isLineBreakChar c = false) :
    load_templates (String.mk (a ++ sepTok ++ b)) =
      [(String.mk a, ""), (String.mk b, "")] := by
  have hpa : parseBlock a = some (String.mk a, "") :=
    parseBlock_plain a hane (fun c hc => (ha c hc).2.1) (fun c hc => (ha c hc).2.2)
  have hpb : parseBlock b = some (String.mk b, "") :=
    parseBlock_plain b hbne (fun c hc => (hb c hc).2.1) (fun c hc => (hb c hc).2.2)
  have hne' : (String.mk a == String.mk b) = false := by
    rw [beq_eq_false_iff_ne]
    intro hcon
    exact hab (congrArg String.data hcon)
  unfold load_templates blocksOf
  rw [show (String.mk (a ++ sepTok ++ b)).data = a ++ sepTok ++ b from rfl]
  rw [splitOnTok_embedded a b (fun c hc => (ha c hc).1) (fun c hc => (hb c hc).1)]
  rw [List.map_cons, List.map_cons, List.map_nil]
  rw [pyStrip_no_space a (fun c hc => (ha c hc).2.1),
    pyStrip_no_space b (fun c hc => (hb c hc).2.1)]
  rw [List.foldl_cons, List.foldl_cons, List.foldl_nil]
  simp [loadBlockStep, hpa, hpb, dictInsert, hne']

unseal splitOnTok splitlinesAux in
theorem claim_C5_token_split_witness :
    load_templates (String.mk ("Greeting".data ++ sepTok ++ "Farewell".data)) =
      [("Greeting", ""), ("Farewell", "")] :=
  claim_C5_token_split "Greeting".data "Farewell".data (by decide) (by decide)
    (by decide) (by decide) (by decide)

unseal splitOnTok splitlinesAux in
/-- Counterexample to C5 as stated: on the one-line source
`"Greeting---Farewell"` the code splits at the embedded `"---"` and
produces two templates, while the claimed line-based separator
semantics (`load_templates_lineSpec`, which splits only at lines
consisting of `"---"`) would keep the line intact as a single
template. -/
theorem counterexample_C5_embedded_separator :
    load_templates "Greeting---Farewell" ≠
      load_templates_lineSpec "Greeting---Farewell" ∧
    load_templates "Greeting---Farewell" = [("Greeting", ""), ("Farewell", "")] ∧
    load_templates_lineSpec "Greeting---Farewell" =
      [("Greeting---Farewell", "")] := by
  refine ⟨by decide, by decide, by decide⟩

end Mobility
